import Mathlib

/-!
Verification of the CEC message protocol layer of the cec_linux crate.

The definitions below are a shallow embedding of `src/lib.rs` and
`src/sys.rs`: bytes are `Nat` values (reduced mod 256 where the Rust code
can overflow), byte buffers are `List Nat`, Rust slice-indexing and
`copy_from_slice`/`clone_from_slice` panics are modelled by the `PanicOr`
type (a panic aborts the call; nothing is returned), and fallible calls
return `Except`/`Option`.
-/

namespace CecLinux

/-- Result of a Rust computation that can panic (index out of bounds or
slice-length mismatch).  `panicked` models the Rust panic: the function
aborts instead of returning a value or an error. -/
inductive PanicOr (α : Type) where
  | ok (a : α)
  | panicked
  deriving DecidableEq, Repr

/-- Model of `&mut arr[lo..hi].copy_from_slice(src)` (also
`clone_from_slice`) on a byte array `arr`: panics unless the range is
valid for `arr` and `src` has exactly the length of the range.  On
success the range is overwritten with `src`. -/
def copyFromSlice (arr : List Nat) (lo hi : Nat) (src : List Nat) : Option (List Nat) :=
  if lo ≤ hi ∧ hi ≤ arr.length ∧ src.length = hi - lo then
    some (arr.take lo ++ src ++ arr.drop hi)
  else
    none

/-! ## Status bits (`sys.rs`, `bitflags! TxStatus` / `RxStatus`) -/

namespace TxStatus

/-- `CEC_TX_STATUS_OK` -/
def OK : Nat := 1
/-- `CEC_TX_STATUS_ARB_LOST` -/
def ARB_LOST : Nat := 2
/-- `CEC_TX_STATUS_NACK` -/
def NACK : Nat := 4
/-- `CEC_TX_STATUS_LOW_DRIVE` -/
def LOW_DRIVE : Nat := 8
/-- `CEC_TX_STATUS_ERROR` -/
def ERROR : Nat := 16
/-- `CEC_TX_STATUS_MAX_RETRIES` -/
def MAX_RETRIES : Nat := 32

end TxStatus

namespace RxStatus

/-- `CEC_RX_STATUS_OK` -/
def OK : Nat := 1
/-- `CEC_RX_STATUS_TIMEOUT` -/
def TIMEOUT : Nat := 2
/-- `CEC_RX_STATUS_FEATURE_ABORT` -/
def FEATURE_ABORT : Nat := 4

end RxStatus

/-- `bitflags` `contains`: every bit of `f` is set in `s`. -/
def statusContains (s f : Nat) : Bool := s &&& f == f

/-- `bitflags` `is_empty`: no bit is set. -/
def statusIsEmpty (s : Nat) : Bool := s == 0

/-! ## Logical addresses (`sys.rs`, `enum CecLogicalAddress`) -/

/-- The 16 logical addresses defined by CEC 2.0 (`CecLogicalAddress`). -/
inductive CecLogicalAddress where
  | Tv
  | Record1
  | Record2
  | Tuner1
  | Playback1
  | Audiosystem
  | Tuner2
  | Tuner3
  | Playback2
  | Record3
  | Tuner4
  | Playback3
  | Backup1
  | Backup2
  | Specific
  | UnregisteredBroadcast
  deriving DecidableEq, Repr, Fintype

namespace CecLogicalAddress

/-- `IntoPrimitive` (`repr(u8)` discriminants). -/
def toByte : CecLogicalAddress → Nat
  | .Tv => 0
  | .Record1 => 1
  | .Record2 => 2
  | .Tuner1 => 3
  | .Playback1 => 4
  | .Audiosystem => 5
  | .Tuner2 => 6
  | .Tuner3 => 7
  | .Playback2 => 8
  | .Record3 => 9
  | .Tuner4 => 10
  | .Playback3 => 11
  | .Backup1 => 12
  | .Backup2 => 13
  | .Specific => 14
  | .UnregisteredBroadcast => 15

/-- `TryFromPrimitive`: `u8 -> CecLogicalAddress`; `none` models the
`Err(TryFromPrimitiveError)` branch. -/
def tryFrom (b : Nat) : Option CecLogicalAddress :=
  match b with
  | 0 => some .Tv
  | 1 => some .Record1
  | 2 => some .Record2
  | 3 => some .Tuner1
  | 4 => some .Playback1
  | 5 => some .Audiosystem
  | 6 => some .Tuner2
  | 7 => some .Tuner3
  | 8 => some .Playback2
  | 9 => some .Record3
  | 10 => some .Tuner4
  | 11 => some .Playback3
  | 12 => some .Backup1
  | 13 => some .Backup2
  | 14 => some .Specific
  | 15 => some .UnregisteredBroadcast
  | _ => none

end CecLogicalAddress

/-! ## Opcode registry (`sys.rs`, `enum CecOpcode`) -/

/-- The opcode registry (`CecOpcode`, `repr(u8)`). -/
inductive CecOpcode where
  | ActiveSource
  | ImageViewOn
  | TextViewOn
  | InactiveSource
  | RequestActiveSource
  | RoutingChange
  | RoutingInformation
  | SetStreamPath
  | Standby
  | CecVersion
  | GetCecVersion
  | GivePhysicalAddr
  | GetMenuLanguage
  | ReportPhysicalAddr
  | SetMenuLanguage
  | ReportFeatures
  | GiveFeatures
  | DeckControl
  | DeckStatus
  | GiveDeckStatus
  | Play
  | DeviceVendorId
  | GiveDeviceVendorId
  | VendorCommand
  | VendorCommandWithId
  | VendorRemoteButtonDown
  | VendorRemoteButtonUp
  | SetOsdString
  | GiveOsdName
  | SetOsdName
  | MenuRequest
  | MenuStatus
  | UserControlPressed
  | UserControlReleased
  | GiveDevicePowerStatus
  | ReportPowerStatus
  | FeatureAbort
  | Abort
  | GiveAudioStatus
  | GiveSystemAudioModeStatus
  | ReportAudioStatus
  | ReportShortAudioDescriptor
  | RequestShortAudioDescriptor
  | SetSystemAudioMode
  | SystemAudioModeRequest
  | SystemAudioModeStatus
  | SetAudioRate
  | RecordOff
  | RecordOn
  | RecordStatus
  | RecordTvScreen
  | ClearAnalogueTimer
  | ClearDigitalTimer
  | ClearExtTimer
  | SetAnalogueTimer
  | SetDigitalTimer
  | SetExtTimer
  | SetTimerProgramTitle
  | TimerClearedStatus
  | TimerStatus
  | GiveTunerDeviceStatus
  | SelectAnalogueService
  | SelectDigitalService
  | TunerDeviceStatus
  | TunerStepDecrement
  | TunerStepIncrement
  | InitiateArc
  | ReportArcInitiated
  | ReportArcTerminated
  | RequestArcInitiation
  | RequestArcTermination
  | TerminateArc
  | RequestCurrentLatency
  | ReportCurrentLatency
  | CdcMessage
  deriving DecidableEq, Repr, Fintype

namespace CecOpcode

/-- `IntoPrimitive` (`repr(u8)` discriminants of `CecOpcode`). -/
def toByte : CecOpcode → Nat
  | .ActiveSource => 0x82
  | .ImageViewOn => 0x04
  | .TextViewOn => 0x0d
  | .InactiveSource => 0x9d
  | .RequestActiveSource => 0x85
  | .RoutingChange => 0x80
  | .RoutingInformation => 0x81
  | .SetStreamPath => 0x86
  | .Standby => 0x36
  | .CecVersion => 0x9e
  | .GetCecVersion => 0x9f
  | .GivePhysicalAddr => 0x83
  | .GetMenuLanguage => 0x91
  | .ReportPhysicalAddr => 0x84
  | .SetMenuLanguage => 0x32
  | .ReportFeatures => 0xa6
  | .GiveFeatures => 0xa5
  | .DeckControl => 0x42
  | .DeckStatus => 0x1b
  | .GiveDeckStatus => 0x1a
  | .Play => 0x41
  | .DeviceVendorId => 0x87
  | .GiveDeviceVendorId => 0x8c
  | .VendorCommand => 0x89
  | .VendorCommandWithId => 0xa0
  | .VendorRemoteButtonDown => 0x8a
  | .VendorRemoteButtonUp => 0x8b
  | .SetOsdString => 0x64
  | .GiveOsdName => 0x46
  | .SetOsdName => 0x47
  | .MenuRequest => 0x8d
  | .MenuStatus => 0x8e
  | .UserControlPressed => 0x44
  | .UserControlReleased => 0x45
  | .GiveDevicePowerStatus => 0x8f
  | .ReportPowerStatus => 0x90
  | .FeatureAbort => 0x00
  | .Abort => 0xff
  | .GiveAudioStatus => 0x71
  | .GiveSystemAudioModeStatus => 0x7d
  | .ReportAudioStatus => 0x7a
  | .ReportShortAudioDescriptor => 0xa3
  | .RequestShortAudioDescriptor => 0xa4
  | .SetSystemAudioMode => 0x72
  | .SystemAudioModeRequest => 0x70
  | .SystemAudioModeStatus => 0x7e
  | .SetAudioRate => 0x9a
  | .RecordOff => 0x0b
  | .RecordOn => 0x09
  | .RecordStatus => 0x0a
  | .RecordTvScreen => 0x0f
  | .ClearAnalogueTimer => 0x33
  | .ClearDigitalTimer => 0x99
  | .ClearExtTimer => 0xa1
  | .SetAnalogueTimer => 0x34
  | .SetDigitalTimer => 0x97
  | .SetExtTimer => 0xa2
  | .SetTimerProgramTitle => 0x67
  | .TimerClearedStatus => 0x43
  | .TimerStatus => 0x35
  | .GiveTunerDeviceStatus => 0x08
  | .SelectAnalogueService => 0x92
  | .SelectDigitalService => 0x93
  | .TunerDeviceStatus => 0x07
  | .TunerStepDecrement => 0x06
  | .TunerStepIncrement => 0x05
  | .InitiateArc => 0xc0
  | .ReportArcInitiated => 0xc1
  | .ReportArcTerminated => 0xc2
  | .RequestArcInitiation => 0xc3
  | .RequestArcTermination => 0xc4
  | .TerminateArc => 0xc5
  | .RequestCurrentLatency => 0xa7
  | .ReportCurrentLatency => 0xa8
  | .CdcMessage => 0xf8

/-- `TryFromPrimitive`: `u8 -> CecOpcode`; `none` models the
`Err(TryFromPrimitiveError)` branch (the error carries the raw byte). -/
def tryFrom (b : Nat) : Option CecOpcode :=
  match b with
  | 0x82 => some .ActiveSource
  | 0x04 => some .ImageViewOn
  | 0x0d => some .TextViewOn
  | 0x9d => some .InactiveSource
  | 0x85 => some .RequestActiveSource
  | 0x80 => some .RoutingChange
  | 0x81 => some .RoutingInformation
  | 0x86 => some .SetStreamPath
  | 0x36 => some .Standby
  | 0x9e => some .CecVersion
  | 0x9f => some .GetCecVersion
  | 0x83 => some .GivePhysicalAddr
  | 0x91 => some .GetMenuLanguage
  | 0x84 => some .ReportPhysicalAddr
  | 0x32 => some .SetMenuLanguage
  | 0xa6 => some .ReportFeatures
  | 0xa5 => some .GiveFeatures
  | 0x42 => some .DeckControl
  | 0x1b => some .DeckStatus
  | 0x1a => some .GiveDeckStatus
  | 0x41 => some .Play
  | 0x87 => some .DeviceVendorId
  | 0x8c => some .GiveDeviceVendorId
  | 0x89 => some .VendorCommand
  | 0xa0 => some .VendorCommandWithId
  | 0x8a => some .VendorRemoteButtonDown
  | 0x8b => some .VendorRemoteButtonUp
  | 0x64 => some .SetOsdString
  | 0x46 => some .GiveOsdName
  | 0x47 => some .SetOsdName
  | 0x8d => some .MenuRequest
  | 0x8e => some .MenuStatus
  | 0x44 => some .UserControlPressed
  | 0x45 => some .UserControlReleased
  | 0x8f => some .GiveDevicePowerStatus
  | 0x90 => some .ReportPowerStatus
  | 0x00 => some .FeatureAbort
  | 0xff => some .Abort
  | 0x71 => some .GiveAudioStatus
  | 0x7d => some .GiveSystemAudioModeStatus
  | 0x7a => some .ReportAudioStatus
  | 0xa3 => some .ReportShortAudioDescriptor
  | 0xa4 => some .RequestShortAudioDescriptor
  | 0x72 => some .SetSystemAudioMode
  | 0x70 => some .SystemAudioModeRequest
  | 0x7e => some .SystemAudioModeStatus
  | 0x9a => some .SetAudioRate
  | 0x0b => some .RecordOff
  | 0x09 => some .RecordOn
  | 0x0a => some .RecordStatus
  | 0x0f => some .RecordTvScreen
  | 0x33 => some .ClearAnalogueTimer
  | 0x99 => some .ClearDigitalTimer
  | 0xa1 => some .ClearExtTimer
  | 0x34 => some .SetAnalogueTimer
  | 0x97 => some .SetDigitalTimer
  | 0xa2 => some .SetExtTimer
  | 0x67 => some .SetTimerProgramTitle
  | 0x43 => some .TimerClearedStatus
  | 0x35 => some .TimerStatus
  | 0x08 => some .GiveTunerDeviceStatus
  | 0x92 => some .SelectAnalogueService
  | 0x93 => some .SelectDigitalService
  | 0x07 => some .TunerDeviceStatus
  | 0x06 => some .TunerStepDecrement
  | 0x05 => some .TunerStepIncrement
  | 0xc0 => some .InitiateArc
  | 0xc1 => some .ReportArcInitiated
  | 0xc2 => some .ReportArcTerminated
  | 0xc3 => some .RequestArcInitiation
  | 0xc4 => some .RequestArcTermination
  | 0xc5 => some .TerminateArc
  | 0xa7 => some .RequestCurrentLatency
  | 0xa8 => some .ReportCurrentLatency
  | 0xf8 => some .CdcMessage
  | _ => none

end CecOpcode

/-! ## User control codes (`sys.rs`, `enum CecUserControlCode`) -/

/-- Parameter for `CecOpcode.UserControlPressed` (`CecUserControlCode`). -/
inductive CecUserControlCode where
  | Select
  | Up
  | Down
  | Left
  | Right
  | RightUp
  | RightDown
  | LeftUp
  | LeftDown
  | RootMenu
  | SetupMenu
  | ContentsMenu
  | FavoriteMenu
  | Exit
  | TopMenu
  | DvdMenu
  | NumberEntryMode
  | Number11
  | Number12
  | Number0
  | Number1
  | Number2
  | Number3
  | Number4
  | Number5
  | Number6
  | Number7
  | Number8
  | Number9
  | Dot
  | Enter
  | Clear
  | NextFavorite
  | ChannelUp
  | ChannelDown
  | PreviousChannel
  | SoundSelect
  | InputSelect
  | DisplayInformation
  | Help
  | PageUp
  | PageDown
  | Power
  | VolumeUp
  | VolumeDown
  | Mute
  | Play
  | Stop
  | Pause
  | Record
  | Rewind
  | FastForward
  | Eject
  | Forward
  | Backward
  | StopRecord
  | PauseRecord
  | Angle
  | SubPicture
  | VideoOnDemand
  | ElectronicProgramGuide
  | TimerProgramming
  | InitialConfiguration
  | SelectBroadcastType
  | SelectSoundPresentation
  | PlayFunction
  | PausePlayFunction
  | RecordFunction
  | PauseRecordFunction
  | StopFunction
  | MuteFunction
  | RestoreVolumeFunction
  | TuneFunction
  | SelectMediaFunction
  | SelectAvInputFunction
  | SelectAudioInputFunction
  | PowerToggleFunction
  | PowerOffFunction
  | PowerOnFunction
  | F1Blue
  | F2Red
  | F3Green
  | F4Yellow
  | F5
  | Data
  deriving DecidableEq, Repr

namespace CecUserControlCode

/-- `IntoPrimitive` (`repr(u8)` discriminants of `CecUserControlCode`). -/
def toByte : CecUserControlCode → Nat
  | .Select => 0x00
  | .Up => 0x01
  | .Down => 0x02
  | .Left => 0x03
  | .Right => 0x04
  | .RightUp => 0x05
  | .RightDown => 0x06
  | .LeftUp => 0x07
  | .LeftDown => 0x08
  | .RootMenu => 0x09
  | .SetupMenu => 0x0a
  | .ContentsMenu => 0x0b
  | .FavoriteMenu => 0x0c
  | .Exit => 0x0d
  | .TopMenu => 0x10
  | .DvdMenu => 0x11
  | .NumberEntryMode => 0x1d
  | .Number11 => 0x1e
  | .Number12 => 0x1f
  | .Number0 => 0x20
  | .Number1 => 0x21
  | .Number2 => 0x22
  | .Number3 => 0x23
  | .Number4 => 0x24
  | .Number5 => 0x25
  | .Number6 => 0x26
  | .Number7 => 0x27
  | .Number8 => 0x28
  | .Number9 => 0x29
  | .Dot => 0x2a
  | .Enter => 0x2b
  | .Clear => 0x2c
  | .NextFavorite => 0x2f
  | .ChannelUp => 0x30
  | .ChannelDown => 0x31
  | .PreviousChannel => 0x32
  | .SoundSelect => 0x33
  | .InputSelect => 0x34
  | .DisplayInformation => 0x35
  | .Help => 0x36
  | .PageUp => 0x37
  | .PageDown => 0x38
  | .Power => 0x40
  | .VolumeUp => 0x41
  | .VolumeDown => 0x42
  | .Mute => 0x43
  | .Play => 0x44
  | .Stop => 0x45
  | .Pause => 0x46
  | .Record => 0x47
  | .Rewind => 0x48
  | .FastForward => 0x49
  | .Eject => 0x4a
  | .Forward => 0x4b
  | .Backward => 0x4c
  | .StopRecord => 0x4d
  | .PauseRecord => 0x4e
  | .Angle => 0x50
  | .SubPicture => 0x51
  | .VideoOnDemand => 0x52
  | .ElectronicProgramGuide => 0x53
  | .TimerProgramming => 0x54
  | .InitialConfiguration => 0x55
  | .SelectBroadcastType => 0x56
  | .SelectSoundPresentation => 0x57
  | .PlayFunction => 0x60
  | .PausePlayFunction => 0x61
  | .RecordFunction => 0x62
  | .PauseRecordFunction => 0x63
  | .StopFunction => 0x64
  | .MuteFunction => 0x65
  | .RestoreVolumeFunction => 0x66
  | .TuneFunction => 0x67
  | .SelectMediaFunction => 0x68
  | .SelectAvInputFunction => 0x69
  | .SelectAudioInputFunction => 0x6a
  | .PowerToggleFunction => 0x6b
  | .PowerOffFunction => 0x6c
  | .PowerOnFunction => 0x6d
  | .F1Blue => 0x71
  | .F2Red => 0x72
  | .F3Green => 0x73
  | .F4Yellow => 0x74
  | .F5 => 0x75
  | .Data => 0x76

end CecUserControlCode

/-! ## The message structure (`sys.rs`, `struct CecMsg`) -/

/-- `CEC_MAX_MSG_SIZE` -/
def CEC_MAX_MSG_SIZE : Nat := 16

/-- Modulus of a `u32` field. -/
def u32Mod : Nat := 4294967296

/-- `struct CecMsg` (`repr(C)`): the 16-byte wire buffer plus driver
bookkeeping.  Every integer field is a `Nat` standing for the
corresponding `u8`/`u32`/`u64`; `msg` is the `[u8; 16]` payload as a
16-element list. -/
structure CecMsg where
  tx_ts : Nat
  rx_ts : Nat
  len : Nat
  timeout : Nat
  sequence : Nat
  flags : Nat
  msg : List Nat
  /-- Opcode byte of the awaited reply (`reply` field); the FeatureAbort
  opcode byte is 0, which is also the value the driver stores on
  error. -/
  reply : Nat
  rx_status : Nat
  tx_status : Nat
  tx_arb_lost_cnt : Nat
  tx_nack_cnt : Nat
  tx_low_drive_cnt : Nat
  tx_error_cnt : Nat
  deriving DecidableEq, Repr

namespace CecMsg

/-- `CecMsg::init(from, to)`: a message with only the address byte
`(from << 4) | to` set and `len = 1`. -/
def init (source dest : CecLogicalAddress) : CecMsg :=
  { tx_ts := 0
    rx_ts := 0
    len := 1
    timeout := 0
    sequence := 0
    flags := 0
    msg := (List.replicate CEC_MAX_MSG_SIZE 0).set 0
      (((source.toByte <<< 4) ||| dest.toByte) % 256)
    reply := 0
    rx_status := 0
    tx_status := 0
    tx_arb_lost_cnt := 0
    tx_nack_cnt := 0
    tx_low_drive_cnt := 0
    tx_error_cnt := 0 }

/-- `CecMsg::initiator()`: `msg[0] >> 4` decoded as a logical address.
The Rust code unwraps the conversion; `none` models the unreachable
panic branch of that `unwrap`. -/
def initiator (m : CecMsg) : Option CecLogicalAddress :=
  CecLogicalAddress.tryFrom ((m.msg.getD 0 0) >>> 4)

/-- `CecMsg::destination()`: `msg[0] & 0xf` decoded as a logical
address (`none` models the unreachable `unwrap` panic branch). -/
def destination (m : CecMsg) : Option CecLogicalAddress :=
  CecLogicalAddress.tryFrom ((m.msg.getD 0 0) &&& 0xf)

/-- `CecMsg::opcode()`: `None` for a poll message (`len <= 1`);
otherwise byte 1 decoded against the registry, where `Sum.inl` is a
known opcode and `Sum.inr raw` is the `Err(TryFromPrimitiveError)`
value carrying the raw unrecognized byte. -/
def opcode (m : CecMsg) : Option (CecOpcode ⊕ Nat) :=
  if m.len > 1 then
    some (match CecOpcode.tryFrom (m.msg.getD 1 0) with
          | some op => Sum.inl op
          | none => Sum.inr (m.msg.getD 1 0))
  else
    none

/-- `CecMsg::parameters()`: bytes `[2, len)` of the payload, empty when
`len <= 2`. -/
def parameters (m : CecMsg) : List Nat :=
  if m.len > 2 then (m.msg.drop 2).take (m.len - 2) else []

/-- `CecMsg::is_broadcast()`. -/
def is_broadcast (m : CecMsg) : Bool :=
  ((m.msg.getD 0 0) &&& 0xf) == 0xf

/-- `CecMsg::is_ok()`: the four-rule success predicate over the status
bits, in source order. -/
def is_ok (m : CecMsg) : Bool :=
  if !(statusIsEmpty m.tx_status) && !(statusContains m.tx_status TxStatus.OK) then
    false
  else if !(statusIsEmpty m.rx_status) && !(statusContains m.rx_status RxStatus.OK) then
    false
  else if statusIsEmpty m.rx_status && statusIsEmpty m.tx_status then
    false
  else
    !(statusContains m.rx_status RxStatus.FEATURE_ABORT)

end CecMsg

/-! ## Session operations (`lib.rs`, `impl CecDevice`)

The transmit ioctl is an external collaborator: it receives the message
built below and fills in the status bits (and, for a requested reply,
the reply payload).  The functions are therefore split into the pure
message construction submitted to the transport, and the pure
resolution of the transport-filled message into the value returned to
the caller. -/

/-- Error vocabulary of the `io::Result` values produced by the session
operations (`std::io::ErrorKind` of the errors actually constructed in
`lib.rs`, each wrapping a `CecTxError` derived from the message). -/
inductive IoError where
  /-- `ErrorKind::Other` (used by `msg_to_io_result`). -/
  | other
  /-- `ErrorKind::TimedOut` (used by `request_data`). -/
  | timedOut
  deriving DecidableEq, Repr

instance {ε α : Type} [DecidableEq ε] [DecidableEq α] : DecidableEq (Except ε α) := fun a b =>
  match a, b with
  | Except.ok x, Except.ok y =>
      match decEq x y with
      | isTrue h => isTrue (by rw [h])
      | isFalse h => isFalse (fun hh => h (Except.ok.injEq x y ▸ hh))
  | Except.error x, Except.error y =>
      match decEq x y with
      | isTrue h => isTrue (by rw [h])
      | isFalse h => isFalse (fun hh => h (Except.error.injEq x y ▸ hh))
  | Except.ok _, Except.error _ => isFalse (fun hh => Except.noConfusion hh)
  | Except.error _, Except.ok _ => isFalse (fun hh => Except.noConfusion hh)

/-- `msg_to_io_result(msg)`: `Ok(())` exactly when the transmit status
contains the OK bit, else an `ErrorKind::Other` error. -/
def msg_to_io_result (m : CecMsg) : Except IoError Unit :=
  if statusContains m.tx_status TxStatus.OK then
    Except.ok ()
  else
    Except.error IoError.other

/-- Message built by `CecDevice::transmit(from, to, opcode)`:
`init`, then `msg[1] = opcode`, `len = 2`. -/
def transmit_msg (source dest : CecLogicalAddress) (opcode : CecOpcode) : CecMsg :=
  let m := CecMsg.init source dest
  { m with msg := m.msg.set 1 opcode.toByte, len := 2 }

/-- Message built by `CecDevice::transmit_data(from, to, opcode, data)`:
`init`, then `msg[1] = opcode`, `len = 2 + data.len()` (a `u32`), then
`msg.msg[2..len].copy_from_slice(data)`, which panics when the slice
range is invalid for the 16-byte buffer or the lengths differ (in
particular whenever `data.len() > 14`). -/
def transmit_data_msg (source dest : CecLogicalAddress) (opcode : CecOpcode)
    (data : List Nat) : PanicOr CecMsg :=
  let m := CecMsg.init source dest
  let m := { m with msg := m.msg.set 1 opcode.toByte }
  let newLen := (2 + data.length) % u32Mod
  match copyFromSlice m.msg 2 newLen data with
  | some arr => PanicOr.ok { m with len := newLen, msg := arr }
  | none => PanicOr.panicked

/-- Message built by `CecDevice::request_data(from, to, opcode, data,
wait_for)` before the transmit ioctl: the `transmit_data` construction
plus `reply = wait_for` and `timeout = 1000`. -/
def request_msg (source dest : CecLogicalAddress) (opcode : CecOpcode)
    (data : List Nat) (wait_for : CecOpcode) : PanicOr CecMsg :=
  let m := CecMsg.init source dest
  let m := { m with msg := m.msg.set 1 opcode.toByte }
  let newLen := (2 + data.length) % u32Mod
  match copyFromSlice m.msg 2 newLen data with
  | some arr =>
      PanicOr.ok { m with len := newLen, msg := arr,
                          reply := wait_for.toByte, timeout := 1000 }
  | none => PanicOr.panicked

/-- Tail of `CecDevice::request_data` after the transmit ioctl returned,
applied to the transport-filled message `m`:
if `m.reply == FeatureAbort && !m.tx_status.contains(OK)` then
`Err(TimedOut)`; else if `m.reply != FeatureAbort || (m.reply ==
FeatureAbort && m.rx_status.contains(FEATURE_ABORT))` then `Ok` of the
payload bytes `[2, len)` (empty when `len <= 2`); else `Err(TimedOut)`. -/
def request_data_resolve (m : CecMsg) : Except IoError (List Nat) :=
  if m.reply == CecOpcode.FeatureAbort.toByte
      && !(statusContains m.tx_status TxStatus.OK) then
    Except.error IoError.timedOut
  else if m.reply != CecOpcode.FeatureAbort.toByte
      || (m.reply == CecOpcode.FeatureAbort.toByte
          && statusContains m.rx_status RxStatus.FEATURE_ABORT) then
    Except.ok (if m.len > 2 then (m.msg.drop 2).take (m.len - 2) else [])
  else
    Except.error IoError.timedOut

/-- Messages submitted by `CecDevice::keypress(from, to, key)` when the
transmissions succeed: a `UserControlPressed` with the key byte as the
single parameter, then a `UserControlReleased` without parameters. -/
def keypress_msgs (source dest : CecLogicalAddress) (key : CecUserControlCode) :
    List CecMsg :=
  match transmit_data_msg source dest CecOpcode.UserControlPressed [key.toByte] with
  | PanicOr.ok m => [m, transmit_msg source dest CecOpcode.UserControlReleased]
  | PanicOr.panicked => []

/-- Messages submitted by `CecDevice::turn_on(from, to)` when the
transmissions succeed: `ImageViewOn` if the target is the TV, otherwise
the `keypress` pair with the `Power` key. -/
def turn_on_msgs (source dest : CecLogicalAddress) : List CecMsg :=
  if dest = CecLogicalAddress.Tv then
    [transmit_msg source dest CecOpcode.ImageViewOn]
  else
    keypress_msgs source dest CecUserControlCode.Power

/-! ## OSD strings (`sys.rs`, `OSDStr<MAX>`) -/

/-- `Vec::resize(n, 0)`: truncate to `n` elements, or pad with zeros up
to `n` elements. -/
def listResize (l : List Nat) (n : Nat) : List Nat :=
  l.take n ++ List.replicate (n - l.length) 0

/-- `impl From<&[u8]> for OSDStr<MAX>`: starts from the zeroed array,
computes `len = MAX.min(value.len())` and then runs
`osd.0[..len].clone_from_slice(value)` — which panics whenever
`value.len() != len`, i.e. whenever the input is longer than `MAX`. -/
def osd_from_bytes (MAX : Nat) (value : List Nat) : PanicOr (List Nat) :=
  match copyFromSlice (List.replicate MAX 0) 0 (min MAX value.length) value with
  | some arr => PanicOr.ok arr
  | none => PanicOr.panicked

/-- `impl TryFrom<String> for OSDStr<MAX>`: fails with `Err(())` unless
the string is ASCII (every byte `< 128`); otherwise resizes the byte
vector to exactly `MAX` bytes (truncating or zero-padding) and wraps
it. -/
def osd_try_from_string (MAX : Nat) (s : List Nat) : Option (List Nat) :=
  if s.all (fun b => b < 128) then
    some (listResize s MAX)
  else
    none

/-! ## Helper constructors used by the theorems -/

/-- A message as returned by the receive path: the driver fills the
payload bytes and the length; remaining bookkeeping fields are zero and
the receive status reports OK. -/
def mkRecvMsg (bytes : List Nat) (len : Nat) : CecMsg :=
  { tx_ts := 0
    rx_ts := 0
    len := len
    timeout := 0
    sequence := 0
    flags := 0
    msg := (bytes ++ List.replicate (CEC_MAX_MSG_SIZE - bytes.length) 0).take CEC_MAX_MSG_SIZE
    reply := 0
    rx_status := RxStatus.OK
    tx_status := 0
    tx_arb_lost_cnt := 0
    tx_nack_cnt := 0
    tx_low_drive_cnt := 0
    tx_error_cnt := 0 }

/-- A transmitted message whose status bits were filled in by the
transport. -/
def mkStatusMsg (tx rx : Nat) : CecMsg :=
  { CecMsg.init CecLogicalAddress.Tv CecLogicalAddress.Tv with
      tx_status := tx, rx_status := rx }

/-- The four-rule success predicate exactly as the specification states
it (for comparison with the implementation `CecMsg.is_ok`): false iff
the transmit status is non-empty and lacks OK, or the receive status is
non-empty and lacks OK, or both status sets are empty, or the receive
status contains FEATURE_ABORT. -/
def spec_is_successful (tx rx : Nat) : Bool :=
  !((!(statusIsEmpty tx) && !(statusContains tx TxStatus.OK))
    || (!(statusIsEmpty rx) && !(statusContains rx RxStatus.OK))
    || (statusIsEmpty tx && statusIsEmpty rx)
    || statusContains rx RxStatus.FEATURE_ABORT)

/-- Transport-filled state of a `request_data(.., wait_for =
FeatureAbort)` message after the peer replied with a feature abort:
transmit OK, receive OK plus FEATURE_ABORT, `reply` still the
FeatureAbort opcode byte (0), payload `FeatureAbort(GiveAudioStatus,
Unrecognized)`. -/
def featureAbortReply : CecMsg :=
  { mkRecvMsg [0x58, 0x00, 0x71, 0x00] 4 with
      tx_status := TxStatus.OK
      rx_status := RxStatus.OK ||| RxStatus.FEATURE_ABORT }

/-- Transport-filled state of the same request when the transmit failed
(NACK after exhausting retries): no OK bit in the transmit status. -/
def failedAbortReply : CecMsg :=
  { featureAbortReply with
      tx_status := TxStatus.NACK ||| TxStatus.MAX_RETRIES
      rx_status := 0 }

/-- The concrete message `request_msg Playback1 Tv GiveDevicePowerStatus
[] FeatureAbort` evaluates to (used to instantiate theorems). -/
def submittedAbortWait : CecMsg :=
  { tx_ts := 0, rx_ts := 0, len := 2, timeout := 1000, sequence := 0, flags := 0,
    msg := 0x40 :: 0x8f :: List.replicate 14 0,
    reply := 0x00, rx_status := 0, tx_status := 0,
    tx_arb_lost_cnt := 0, tx_nack_cnt := 0, tx_low_drive_cnt := 0, tx_error_cnt := 0 }

/-- The concrete message `request_msg Playback2 Tv GiveDevicePowerStatus
[] ReportPowerStatus` evaluates to (used to instantiate theorems). -/
def submittedPowerRequest : CecMsg :=
  { tx_ts := 0, rx_ts := 0, len := 2, timeout := 1000, sequence := 0, flags := 0,
    msg := 0x80 :: 0x8f :: List.replicate 14 0,
    reply := 0x90, rx_status := 0, tx_status := 0,
    tx_arb_lost_cnt := 0, tx_nack_cnt := 0, tx_low_drive_cnt := 0, tx_error_cnt := 0 }

/-! ## Shared lemmas -/

theorem tryFrom_toByte (op : CecOpcode) : CecOpcode.tryFrom op.toByte = some op := by
  cases op <;> rfl

theorem addr_byte_decode (src dst : CecLogicalAddress) :
    CecLogicalAddress.tryFrom ((((src.toByte <<< 4) ||| dst.toByte) % 256) >>> 4) = some src
    ∧ CecLogicalAddress.tryFrom ((((src.toByte <<< 4) ||| dst.toByte) % 256) &&& 0xf)
      = some dst := by
  revert src dst; decide

theorem copyFromSlice_oversized (arr data : List Nat) (hi : Nat)
    (hdata : 14 < data.length) (harr : arr.length = 16) :
    copyFromSlice arr 2 hi data = none := by
  unfold copyFromSlice
  rw [if_neg]
  rintro ⟨h1, h2, h3⟩
  rw [harr] at h2
  omega

theorem take_length_append {α : Type} (l l2 : List α) : (l ++ l2).take l.length = l := by
  induction l with
  | nil => rfl
  | cons a as ih => simp [List.take, ih]

/-! ## Claim theorems -/

/-- C4: for every combination of the six Tx status bits and the three Rx
status bits, `CecMsg.is_ok` returns false exactly when the transmit
status is non-empty and lacks OK, or the receive status is non-empty
and lacks OK, or both status sets are empty, or the receive status
contains FEATURE_ABORT — and true in all remaining cases, so
FEATURE_ABORT overrides an otherwise-OK receive status. -/
theorem is_ok_matches_spec_truth_table :
    ∀ (tx : Fin 64) (rx : Fin 8),
      (mkStatusMsg tx.val rx.val).is_ok = spec_is_successful tx.val rx.val := by
  decide

set_option maxRecDepth 4096 in
/-- C8: decoding logical addresses from a message never fails — for all
256 values of the address byte, both `initiator()` and `destination()`
decode to a valid logical address, so the panic branch of the `unwrap`
in the source is unreachable. -/
theorem logical_address_decode_total :
    ∀ b : Fin 256,
      ((mkRecvMsg [b.val] 2).initiator).isSome = true
      ∧ ((mkRecvMsg [b.val] 2).destination).isSome = true := by
  decide

/-- C3 (counterexample): the claim says the success of `transmit` /
`transmit_data` agrees with the four-rule predicate, and in particular
that a message whose receive status contains FEATURE_ABORT is reported
as a failure even when the transmit status contains OK.  At the
concrete status pair (tx = OK, rx = FEATURE_ABORT) the four-rule
predicate is false, yet `msg_to_io_result` reports success. -/
theorem transmit_success_disagrees_with_is_ok_cex :
    msg_to_io_result (mkStatusMsg TxStatus.OK RxStatus.FEATURE_ABORT) = Except.ok ()
    ∧ (mkStatusMsg TxStatus.OK RxStatus.FEATURE_ABORT).is_ok = false := by
  decide

/-- C3 (amended): the success of a `transmit` / `transmit_data` call is
determined solely by the transmit status: the call succeeds exactly
when tx_status contains OK.  A message with both status sets empty is
therefore reported as a failure, but a message whose rx_status contains
FEATURE_ABORT while tx_status contains OK is reported as a success —
the four-rule predicate is not consulted. -/
theorem transmit_success_iff_tx_ok :
    (∀ (tx : Fin 64) (rx : Fin 8),
      (msg_to_io_result (mkStatusMsg tx.val rx.val) = Except.ok ()
        ↔ statusContains tx.val TxStatus.OK = true))
    ∧ msg_to_io_result (mkStatusMsg 0 0) = Except.error IoError.other
    ∧ msg_to_io_result (mkStatusMsg TxStatus.OK RxStatus.FEATURE_ABORT) = Except.ok () := by
  refine ⟨by decide, by decide, by decide⟩

set_option synthInstance.maxSize 1024 in
/-- C9: for every pair of logical addresses, `turn_on` sends a single
`ImageViewOn` message when the target is the TV, and otherwise a
`UserControlPressed` message whose single parameter byte is the Power
key code (0x40) followed by a `UserControlReleased` message with no
parameters. -/
theorem turn_on_message_sequence :
    ∀ (src dst : CecLogicalAddress),
      (turn_on_msgs src dst).map (fun m => (m.initiator, m.destination, m.opcode, m.parameters))
        = if dst = CecLogicalAddress.Tv then
            [(some src, some dst, some (Sum.inl CecOpcode.ImageViewOn), [])]
          else
            [(some src, some dst, some (Sum.inl CecOpcode.UserControlPressed), [0x40]),
             (some src, some dst, some (Sum.inl CecOpcode.UserControlReleased), [])] := by
  decide

/-- C6: `opcode()` returns `none` exactly when the message length is at
most 1 (a poll message); the byte 0x5C is not in the opcode registry,
and a received message carrying it decodes to the distinguishable
unrecognized-opcode value holding the raw byte — not an error — with
`parameters()` still returning bytes [2, length) intact. -/
theorem opcode_decode_total :
    (∀ m : CecMsg, m.opcode = none ↔ m.len ≤ 1)
    ∧ CecOpcode.tryFrom 0x5c = none
    ∧ (mkRecvMsg [0x85, 0x5c, 0x01, 0x02] 4).opcode = some (Sum.inr 0x5c)
    ∧ (mkRecvMsg [0x85, 0x5c, 0x01, 0x02] 4).parameters = [0x01, 0x02] := by
  refine ⟨?_, by decide, by decide, by decide⟩
  intro m
  by_cases h : m.len > 1
  · simp only [CecMsg.opcode, if_pos h]
    constructor
    · intro hc
      exact absurd hc (by simp)
    · intro hc
      omega
  · simp only [CecMsg.opcode, if_neg h]
    constructor
    · intro _
      omega
    · intro _
      trivial

/-- C10 (code bug): conversions into the fixed-size OSD string.  From a
string, the conversion succeeds exactly when every byte is ASCII, and
an ASCII string longer than MAX is silently truncated to its first MAX
bytes — as the claim states.  From a byte slice, however, an input
longer than MAX does not truncate: although the code computes
`len = MAX.min(value.len())`, it passes the whole slice to
`clone_from_slice`, whose length check then panics; inputs of at most
MAX bytes are zero-padded as expected. -/
theorem osd_conversion_behavior :
    (∀ s : List Nat, (osd_try_from_string 15 s).isSome = s.all (fun b => b < 128))
    ∧ osd_try_from_string 15 (List.replicate 20 0x41) = some (List.replicate 15 0x41)
    ∧ osd_from_bytes 15 [0x70, 0x69] = PanicOr.ok ([0x70, 0x69] ++ List.replicate 13 0)
    ∧ osd_from_bytes 15 (List.replicate 16 0x41) = PanicOr.panicked := by
  refine ⟨?_, by decide, by decide, by decide⟩
  intro s
  by_cases h : s.all (fun b => b < 128) <;> simp [osd_try_from_string, h]

/-- C1 (counterexample): the claim says that when the transmit status
has OK and the receive status flags FEATURE_ABORT, `request_data(..,
wait_for = FeatureAbort)` returns the abort reason operand as an
error value, not silently as ordinary reply data.  At the concrete
transport-filled message `featureAbortReply` (transmit OK, receive
OK | FEATURE_ABORT, reply = FeatureAbort) the call instead returns
`Ok [0x71, 0x00]` — the abort payload delivered silently as ordinary
reply data. -/
theorem request_feature_abort_returns_data_cex :
    featureAbortReply.reply = CecOpcode.FeatureAbort.toByte
    ∧ statusContains featureAbortReply.tx_status TxStatus.OK = true
    ∧ statusContains featureAbortReply.rx_status RxStatus.FEATURE_ABORT = true
    ∧ request_data_resolve featureAbortReply = Except.ok [0x71, 0x00] := by
  refine ⟨rfl, by decide, by decide, by decide⟩

/-- C1 (amended): a `request_data` call with `wait_for = FeatureAbort`
submits a message whose `reply` field is the FeatureAbort opcode byte;
on return, if the transmit status lacks the OK bit the call returns a
timeout-class error, and otherwise, if the receive status contains the
FEATURE_ABORT bit, the call returns the parameter bytes of the abort message
(the aborted opcode and the reason operand) as ordinary successful
reply data, not as an error value. -/
theorem request_feature_abort_resolution :
    (∀ (src dst : CecLogicalAddress) (op : CecOpcode) (data : List Nat) (m : CecMsg),
        request_msg src dst op data CecOpcode.FeatureAbort = PanicOr.ok m →
        m.reply = CecOpcode.FeatureAbort.toByte)
    ∧ (∀ m : CecMsg, m.reply = CecOpcode.FeatureAbort.toByte →
        (statusContains m.tx_status TxStatus.OK = false →
          request_data_resolve m = Except.error IoError.timedOut)
        ∧ (statusContains m.tx_status TxStatus.OK = true →
           statusContains m.rx_status RxStatus.FEATURE_ABORT = true →
           ∃ payload, request_data_resolve m = Except.ok payload)) := by
  constructor
  · intro src dst op data m h
    simp only [request_msg, CecMsg.init] at h
    split at h
    · cases h
      rfl
    · cases h
  · intro m hreply
    constructor
    · intro htx
      simp [request_data_resolve, hreply, CecOpcode.toByte, htx]
    · intro htx hrx
      refine ⟨if m.len > 2 then (m.msg.drop 2).take (m.len - 2) else [], ?_⟩
      simp [request_data_resolve, hreply, CecOpcode.toByte, htx, hrx]

/-- C1 (witness): the amended theorem instantiated at concrete inputs —
the submitted message of a FeatureAbort-awaiting request carries the
FeatureAbort reply byte, a failed transmit resolves to the
timeout-class error, and a feature-abort reply with transmit OK
resolves to an ordinary successful payload. -/
theorem request_feature_abort_resolution_witness :
    submittedAbortWait.reply = CecOpcode.FeatureAbort.toByte
    ∧ request_data_resolve failedAbortReply = Except.error IoError.timedOut
    ∧ (∃ payload, request_data_resolve featureAbortReply = Except.ok payload) :=
  ⟨request_feature_abort_resolution.1 CecLogicalAddress.Playback1 CecLogicalAddress.Tv
      CecOpcode.GiveDevicePowerStatus [] submittedAbortWait (by decide),
   (request_feature_abort_resolution.2 failedAbortReply (by decide)).1 (by decide),
   (request_feature_abort_resolution.2 featureAbortReply (by decide)).2 (by decide) (by decide)⟩

/-- C2 (counterexample): the claim says a parameter sequence longer
than 14 bytes makes the encoding fail with a ParameterTooLong error.
At a concrete 15-byte parameter list the code instead panics in
`copy_from_slice` (slice bounds/length violation): the call aborts and
no error value — and no message — is ever produced; there is no
ParameterTooLong error anywhere in the code. -/
theorem oversized_parameters_panic_cex :
    transmit_data_msg CecLogicalAddress.Playback2 CecLogicalAddress.Audiosystem
      CecOpcode.SetOsdName (List.replicate 15 0x41) = PanicOr.panicked := by
  decide

/-- C2 (amended): for every parameter sequence longer than 14 bytes,
`transmit_data` and `request_data` panic in the `copy_from_slice` of
the encoding (a Rust abort, not a returned ParameterTooLong error);
they never silently truncate the parameters and never succeed. -/
theorem oversized_parameters_never_encode :
    ∀ (src dst : CecLogicalAddress) (op wait_for : CecOpcode) (data : List Nat),
      14 < data.length →
      transmit_data_msg src dst op data = PanicOr.panicked
      ∧ request_msg src dst op data wait_for = PanicOr.panicked := by
  intro src dst op wait_for data h
  have hlen : (((List.replicate CEC_MAX_MSG_SIZE 0).set 0
      (((src.toByte <<< 4) ||| dst.toByte) % 256)).set 1 op.toByte).length = 16 := by
    simp [CEC_MAX_MSG_SIZE]
  constructor
  · simp only [transmit_data_msg, CecMsg.init]
    rw [copyFromSlice_oversized _ _ _ h hlen]
  · simp only [request_msg, CecMsg.init]
    rw [copyFromSlice_oversized _ _ _ h hlen]

/-- C2 (witness): the amended theorem instantiated at a concrete
20-byte parameter list. -/
theorem oversized_parameters_never_encode_witness :
    transmit_data_msg CecLogicalAddress.Playback1 CecLogicalAddress.Tv
      CecOpcode.VendorCommand (List.replicate 20 0x10) = PanicOr.panicked
    ∧ request_msg CecLogicalAddress.Playback1 CecLogicalAddress.Tv
      CecOpcode.VendorCommand (List.replicate 20 0x10) CecOpcode.Abort = PanicOr.panicked :=
  oversized_parameters_never_encode CecLogicalAddress.Playback1 CecLogicalAddress.Tv
    CecOpcode.VendorCommand CecOpcode.Abort (List.replicate 20 0x10) (by decide)

/-- C7: every message submitted to the transport by `request_data`
carries a reply-wait timeout of exactly 1000 ms (so the fixed 1000 ms
ceiling holds; `request_data` exposes no caller-supplied timeout, which
makes the honored/clamped clause vacuous) and the awaited reply opcode
requested by the caller. -/
theorem request_reply_timeout_fixed :
    ∀ (src dst : CecLogicalAddress) (op : CecOpcode) (data : List Nat)
      (wait_for : CecOpcode) (m : CecMsg),
      request_msg src dst op data wait_for = PanicOr.ok m →
      m.timeout = 1000 ∧ m.reply = wait_for.toByte := by
  intro src dst op data wait_for m h
  simp only [request_msg, CecMsg.init] at h
  split at h
  · cases h
    exact ⟨rfl, rfl⟩
  · cases h

/-- C7 (witness): the theorem instantiated at a concrete request whose
submitted message is `submittedPowerRequest`. -/
theorem request_reply_timeout_fixed_witness :
    submittedPowerRequest.timeout = 1000
    ∧ submittedPowerRequest.reply = CecOpcode.ReportPowerStatus.toByte :=
  request_reply_timeout_fixed CecLogicalAddress.Playback2 CecLogicalAddress.Tv
    CecOpcode.GiveDevicePowerStatus [] CecOpcode.ReportPowerStatus
    submittedPowerRequest (by decide)

/-- C5: the encode/decode round trip — for every initiator,
destination, known opcode and parameter list of at most 14 bytes, the
message built by the `transmit_data` encoding reads back the same
initiator, destination, opcode and parameters (with total length
2 + number of parameters); and the concrete scenario: transmitting
Playback2 -> Audiosystem with opcode Standby and no parameters encodes
to address byte 0x85, opcode byte 0x36, total length 2. -/
theorem encode_decode_roundtrip :
    (∀ (src dst : CecLogicalAddress) (op : CecOpcode) (data : List Nat),
        data.length ≤ 14 →
        ∃ m, transmit_data_msg src dst op data = PanicOr.ok m
          ∧ m.initiator = some src
          ∧ m.destination = some dst
          ∧ m.opcode = some (Sum.inl op)
          ∧ m.parameters = data
          ∧ m.len = 2 + data.length)
    ∧ ((transmit_msg CecLogicalAddress.Playback2 CecLogicalAddress.Audiosystem
          CecOpcode.Standby).msg.getD 0 0 = 0x85
       ∧ (transmit_msg CecLogicalAddress.Playback2 CecLogicalAddress.Audiosystem
          CecOpcode.Standby).msg.getD 1 0 = 0x36
       ∧ (transmit_msg CecLogicalAddress.Playback2 CecLogicalAddress.Audiosystem
          CecOpcode.Standby).len = 2) := by
  constructor
  · intro src dst op data hlen
    have hmod : (2 + data.length) % u32Mod = 2 + data.length := by
      apply Nat.mod_eq_of_lt
      unfold u32Mod
      omega
    have hmsg : ((List.replicate CEC_MAX_MSG_SIZE 0).set 0
        (((src.toByte <<< 4) ||| dst.toByte) % 256)).set 1 op.toByte
        = (((src.toByte <<< 4) ||| dst.toByte) % 256) :: op.toByte :: List.replicate 14 0 := rfl
    have hcopy : copyFromSlice
        ((((src.toByte <<< 4) ||| dst.toByte) % 256) :: op.toByte :: List.replicate 14 0)
        2 (2 + data.length) data
        = some ((((src.toByte <<< 4) ||| dst.toByte) % 256) :: op.toByte ::
            (data ++ (List.replicate 14 0).drop data.length)) := by
      unfold copyFromSlice
      rw [if_pos]
      · rw [show 2 + data.length = data.length + 2 from by omega]
        rfl
      · refine ⟨by omega, ?_, by omega⟩
        simp
        omega
    refine ⟨{ tx_ts := 0, rx_ts := 0, len := 2 + data.length, timeout := 0, sequence := 0,
              flags := 0,
              msg := (((src.toByte <<< 4) ||| dst.toByte) % 256) :: op.toByte ::
                (data ++ (List.replicate 14 0).drop data.length),
              reply := 0, rx_status := 0, tx_status := 0, tx_arb_lost_cnt := 0,
              tx_nack_cnt := 0, tx_low_drive_cnt := 0, tx_error_cnt := 0 },
            ?_, ?_, ?_, ?_, ?_, rfl⟩
    · simp only [transmit_data_msg, CecMsg.init, hmod, hmsg, hcopy]
    · simp only [CecMsg.initiator, List.getD]
      exact (addr_byte_decode src dst).1
    · simp only [CecMsg.destination, List.getD]
      exact (addr_byte_decode src dst).2
    · simp only [CecMsg.opcode, List.getD]
      rw [if_pos (by omega)]
      simp [tryFrom_toByte]
    · simp only [CecMsg.parameters]
      rcases Nat.eq_zero_or_pos data.length with hz | hp
      · rw [if_neg (by omega)]
        exact (List.length_eq_zero.mp hz).symm
      · rw [if_pos (by omega)]
        rw [show 2 + data.length - 2 = data.length from by omega]
        simp only [List.drop]
        exact take_length_append data _
  · exact ⟨rfl, rfl, rfl⟩

/-- C5 (witness): the round trip instantiated at a concrete message —
Playback2 -> Audiosystem, ReportAudioStatus with the single parameter
0x12. -/
theorem encode_decode_roundtrip_witness :
    ∃ m, transmit_data_msg CecLogicalAddress.Playback2 CecLogicalAddress.Audiosystem
          CecOpcode.ReportAudioStatus [0x12] = PanicOr.ok m
      ∧ m.initiator = some CecLogicalAddress.Playback2
      ∧ m.destination = some CecLogicalAddress.Audiosystem
      ∧ m.opcode = some (Sum.inl CecOpcode.ReportAudioStatus)
      ∧ m.parameters = [0x12]
      ∧ m.len = 2 + [0x12].length :=
  encode_decode_roundtrip.1 CecLogicalAddress.Playback2 CecLogicalAddress.Audiosystem
    CecOpcode.ReportAudioStatus [0x12] (by decide)

end CecLinux
